import Mathlib

/-!
# Verification of the smart-farm backend's device state reconciliation engine

A shallow embedding of `src/server.js` (in-memory fallback mode, the
in-process Registry).  JavaScript objects are modelled as association
lists from key strings to `JSValue`; `Object.assign` is the left fold of
key-by-key assignment, matching the JS semantics of replacing an
existing key in place or appending a fresh one.  Timestamps
(`Date.now()`, `new Date()`) are natural-number milliseconds.
-/

namespace SmartFarm

/-- A JavaScript runtime value, as far as this server manipulates them:
`undefined`, booleans, numbers (sensor readings may be fractional, so
rationals), strings, and `Date` objects (by their epoch milliseconds). -/
inductive JSValue where
  | undefinedVal : JSValue
  | bool : Bool → JSValue
  | num : Rat → JSValue
  | str : String → JSValue
  | date : Nat → JSValue
deriving DecidableEq, Repr

/-- A JavaScript object: ordered key/value pairs (first occurrence of a
key is the live one for reads; writes replace in place). -/
abbrev Obj := List (String × JSValue)

/-- Property read `o[k]`: `none` models an absent key (JS `undefined`
at the object level is modelled separately by `JSValue.undefinedVal`). -/
def objGet : Obj → String → Option JSValue
  | [], _ => none
  | (k', v') :: rest, k => if k' = k then some v' else objGet rest k

/-- The keys of an object, in order. -/
def keys (o : Obj) : List String := o.map Prod.fst

/-- Property write `o[k] = v`: replace the first occurrence of `k`, or
append the key if absent (JS property-creation order). -/
def objSet : Obj → String → JSValue → Obj
  | [], k, v => [(k, v)]
  | (k', v') :: rest, k, v =>
      if k' = k then (k, v) :: rest else (k', v') :: objSet rest k v

/-- `Object.assign(target, src)`: copy every key of `src` into `target`
in order. -/
def objAssign (target : Obj) (src : Obj) : Obj :=
  src.foldl (fun acc kv => objSet acc kv.1 kv.2) target

/-- JavaScript truthiness of a value. -/
def jsTruthy : JSValue → Bool
  | .undefinedVal => false
  | .bool b => b
  | .num q => q != 0
  | .str s => s != ""
  | .date _ => true

/-- Read a property the way a JS expression does: an absent key reads
as `undefined`. -/
def dget (o : Obj) (k : String) : JSValue := (objGet o k).getD .undefinedVal

/-- `x || false`, as used for `data.pumpActive || false`. -/
def jsOrFalse (v : JSValue) : JSValue := if jsTruthy v then v else .bool false

/-- The `id` property of a device record, when it is a string. -/
def devId (d : Obj) : Option String :=
  match objGet d "id" with
  | some (.str s) => some s
  | _ => none

/-- `d.id === id` for a string `id`. -/
def hasId (d : Obj) (id : String) : Bool := objGet d "id" == some (.str id)

/-! ## Basic object lemmas -/

theorem objGet_objSet_self (o : Obj) (k : String) (v : JSValue) :
    objGet (objSet o k v) k = some v := by
  induction o with
  | nil => simp [objSet, objGet]
  | cons kv rest ih =>
      by_cases h : kv.1 = k
      · simp [objSet, objGet, h]
      · simp [objSet, objGet, h, ih]

theorem objGet_objSet_ne (o : Obj) (k k' : String) (v : JSValue) (h : k' ≠ k) :
    objGet (objSet o k v) k' = objGet o k' := by
  have hne : ¬ k = k' := fun hh => h hh.symm
  induction o with
  | nil => simp [objSet, objGet, hne]
  | cons kv rest ih =>
      by_cases hk : kv.1 = k
      · subst hk
        simp only [objSet, if_pos rfl, objGet, if_neg hne]
      · simp [objSet, objGet, hk, ih]

theorem objSet_objSet_same (o : Obj) (k : String) (v : JSValue) :
    objSet (objSet o k v) k v = objSet o k v := by
  induction o with
  | nil => simp [objSet]
  | cons kv rest ih =>
      by_cases h : kv.1 = k
      · simp [objSet, h]
      · simp [objSet, h, ih]

theorem objGet_objAssign_not_mem (t src : Obj) (k : String) (h : k ∉ keys src) :
    objGet (objAssign t src) k = objGet t k := by
  induction src generalizing t with
  | nil => rfl
  | cons kv rest ih =>
      simp only [keys, List.map_cons, List.mem_cons] at h
      push_neg at h
      have : objAssign t (kv :: rest) = objAssign (objSet t kv.1 kv.2) rest := rfl
      rw [this, ih _ (by simpa [keys] using h.2), objGet_objSet_ne _ _ _ _ h.1]

theorem objGet_objAssign_mem (t src : Obj) (k : String)
    (hnd : (keys src).Nodup) (h : k ∈ keys src) :
    objGet (objAssign t src) k = objGet src k := by
  induction src generalizing t with
  | nil => simp [keys] at h
  | cons kv rest ih =>
      have hstep : objAssign t (kv :: rest) = objAssign (objSet t kv.1 kv.2) rest := rfl
      simp only [keys, List.map_cons, List.nodup_cons] at hnd
      by_cases hk : kv.1 = k
      · subst hk
        have hnr : kv.1 ∉ keys rest := by simpa [keys] using hnd.1
        rw [hstep, objGet_objAssign_not_mem _ _ _ hnr, objGet_objSet_self]
        simp [objGet]
      · have hmem : k ∈ keys rest := by
          simp only [keys, List.map_cons, List.mem_cons] at h
          exact h.resolve_left (fun hh => hk hh.symm)
        rw [hstep, ih _ (by simpa [keys] using hnd.2) hmem]
        simp [objGet, hk]

/-! ## The in-memory Registry (`memoryDevices` and the database helper
functions of `server.js`, in their `useDatabase == false` branches) -/

/-- The seeded `memoryDevices[0]` record, verbatim, including its
snake_case keys; `last_update: new Date()` is the process start time. -/
def seedDevice (t0 : Nat) : Obj :=
  [ ("id", .str "device_001"),
    ("name", .str "สวนหน้าบ้าน"),
    ("zone", .str "garden"),
    ("zone_label", .str "🌳 สวน"),
    ("ip", .str "192.168.0.110"),
    ("status", .str "online"),
    ("temperature", .num (65/2)),
    ("humidity", .num 65),
    ("soil_moisture", .num 78),
    ("pump_active", .bool false),
    ("mode", .str "auto"),
    ("last_update", .date t0) ]

/-- `getDevices` (memory branch): returns `memoryDevices` as-is, with no
camelCase translation (`mapDeviceFromDB` is only applied on the
database branch). -/
def memGetDevices (reg : List Obj) : List Obj := reg

/-- `getDevice` (memory branch): `memoryDevices.find(d => d.id === id)`. -/
def memGetDevice (reg : List Obj) (id : String) : Option Obj :=
  reg.find? (fun d => hasId d id)

/-- `createDevice` (memory branch): `memoryDevices.push(device); return
device;` — no duplicate check. -/
def memCreateDevice (reg : List Obj) (device : Obj) : List Obj × Obj :=
  (reg ++ [device], device)

/-- `updateDevice` (memory branch): find the first record with the id
and `Object.assign(device, updates, { lastUpdate: new Date() })`;
returns the (possibly `undefined`) device.  The registry is returned
along with the result since the JS code mutates the record in place. -/
def memUpdateDevice : List Obj → String → Obj → Nat → List Obj × Option Obj
  | [], _, _, _ => ([], none)
  | d :: rest, id, updates, now =>
      if hasId d id then
        let d2 := objSet (objAssign d updates) "lastUpdate" (.date now)
        (d2 :: rest, some d2)
      else
        let r := memUpdateDevice rest id updates now
        (d :: r.1, r.2)

/-- `deleteDevice` (memory branch): `findIndex` then `splice(index, 1)`. -/
def memDeleteDevice : List Obj → String → List Obj × Bool
  | [], _ => ([], false)
  | d :: rest, id =>
      if hasId d id then (rest, true)
      else
        let r := memDeleteDevice rest id
        (d :: r.1, r.2)

/-! ## LastSeen map and the Liveness Monitor -/

/-- `deviceLastSeen`: map from device id to epoch-milliseconds of the
most recently accepted telemetry message. -/
abbrev LastSeen := List (String × Nat)

def lsGet : LastSeen → String → Option Nat
  | [], _ => none
  | (k', t) :: rest, k => if k' = k then some t else lsGet rest k

def lsSet : LastSeen → String → Nat → LastSeen
  | [], k, t => [(k, t)]
  | (k', t') :: rest, k, t =>
      if k' = k then (k, t) :: rest else (k', t') :: lsSet rest k t

/-- The LastSeen entry the sweep reads for a device:
`deviceLastSeen[device.id]` (no entry when the device has no string id
or has never reported). -/
def lsOfDev (ls : LastSeen) (d : Obj) : Option Nat :=
  match devId d with
  | some i => lsGet ls i
  | none => none

/-- `OFFLINE_TIMEOUT = 20000`: 20 seconds without data means offline. -/
def OFFLINE_TIMEOUT : Nat := 20000

/-- `setInterval(checkOfflineDevices, 30000)`: the sweep period. -/
def SWEEP_INTERVAL : Nat := 30000

/-- What one sweep iteration does to one device: if the device has a
truthy LastSeen entry, the silence exceeds the timeout, and the status
is not already `offline`, set the status to `offline` and emit the
`deviceUpdate` snapshot `{ ...device, status: 'offline' }`; otherwise
leave it alone and emit nothing. -/
def sweepDevice (ls : LastSeen) (now : Nat) (d : Obj) : Obj × List Obj :=
  match lsOfDev ls d with
  | some t =>
      if t ≠ 0 ∧ now - t > OFFLINE_TIMEOUT then
        if objGet d "status" ≠ some (.str "offline") then
          let d2 := objSet d "status" (.str "offline")
          (d2, [objSet d2 "status" (.str "offline")])
        else (d, [])
      else (d, [])
  | none => (d, [])

/-- `checkOfflineDevices`: iterate the sweep over `memoryDevices`,
collecting the mutated registry and the emitted `deviceUpdate` events
in device order. -/
def checkOfflineDevices (reg : List Obj) (ls : LastSeen) (now : Nat) :
    List Obj × List Obj :=
  match reg with
  | [] => ([], [])
  | d :: rest =>
      let r := sweepDevice ls now d
      let rs := checkOfflineDevices rest ls now
      (r.1 :: rs.1, r.2 ++ rs.2)

/-- The spec-side per-device sweep condition: a truthy LastSeen entry
older than the timeout, and a current status other than `offline`. -/
def qualifiesOffline (ls : LastSeen) (now : Nat) (d : Obj) : Bool :=
  match lsOfDev ls d with
  | some t =>
      decide (t ≠ 0) && decide (now - t > OFFLINE_TIMEOUT) &&
        decide (objGet d "status" ≠ some (.str "offline"))
  | none => false

/-- The offline snapshot: the device with its status set to `offline`. -/
def markOffline (d : Obj) : Obj := objSet d "status" (.str "offline")

theorem sweepDevice_eq (ls : LastSeen) (now : Nat) (d : Obj) :
    sweepDevice ls now d =
      if qualifiesOffline ls now d then (markOffline d, [markOffline d])
      else (d, []) := by
  unfold sweepDevice qualifiesOffline markOffline
  cases h : lsOfDev ls d with
  | none => simp
  | some t =>
      by_cases h0 : t = 0
      · simp [h0]
      · by_cases hstale : now - t > OFFLINE_TIMEOUT
        · by_cases h2 : objGet d "status" ≠ some (.str "offline")
          · simp [h0, hstale, h2, objSet_objSet_same]
          · simp [h0, hstale, h2]
        · simp [h0, hstale]

theorem checkOfflineDevices_eq (reg : List Obj) (ls : LastSeen) (now : Nat) :
    checkOfflineDevices reg ls now =
      (reg.map (fun d => if qualifiesOffline ls now d then markOffline d else d),
       (reg.filter (qualifiesOffline ls now)).map markOffline) := by
  induction reg with
  | nil => rfl
  | cons d rest ih =>
      unfold checkOfflineDevices
      rw [ih, sweepDevice_eq]
      by_cases h : qualifiesOffline ls now d
      · simp [h, List.filter_cons, markOffline]
      · simp [h, List.filter_cons]

/-! ## History Recorder (`memorySensorHistory`, memory branch) -/

/-- One record pushed by `storeSensorHistory` (memory branch):
`{ timestamp, temperature, humidity, soilMoisture }`. -/
structure Sample where
  timestamp : Nat
  temperature : JSValue
  humidity : JSValue
  soilMoisture : JSValue
deriving DecidableEq, Repr

/-- `memorySensorHistory`: per-device append-only sample lists; a
missing device id reads as the empty list. -/
abbrev SensorHistory := String → List Sample

/-- `storeSensorHistory` (memory branch): push
`{timestamp: new Date(), temperature, humidity, soilMoisture: soilPercent}`
onto the device's list and `shift()` when the length exceeds 720. -/
def storeSensorHistory (hist : SensorHistory) (deviceId : String) (data : Obj)
    (now : Nat) : SensorHistory :=
  fun j =>
    if j = deviceId then
      let pushed := hist deviceId ++
        [⟨now, dget data "temperature", dget data "humidity", dget data "soilPercent"⟩]
      if pushed.length > 720 then pushed.tail else pushed
    else hist j

/-! ## Telemetry Ingest Pipeline (`handleDeviceData`, `handleDeviceStatus`) -/

/-- The combined post-state of one `handleDeviceData` call: the
registry, the LastSeen map, the history, and the `deviceUpdate` events
broadcast by `io.emit`. -/
structure IngestOut where
  reg : List Obj
  lastSeen : LastSeen
  hist : SensorHistory
  events : List Obj

/-- The update object literal built by `handleDeviceData`: the
camelCase sensor fields, `pumpActive: data.pumpActive || false`, and
the status derived from the truthiness of `data.pumpActive`. -/
def ingestUpdates (data : Obj) : Obj :=
  [ ("temperature", dget data "temperature"),
    ("humidity", dget data "humidity"),
    ("soilMoisture", dget data "soilPercent"),
    ("pumpActive", jsOrFalse (dget data "pumpActive")),
    ("status", .str (if jsTruthy (dget data "pumpActive") then "watering" else "online")) ]

/-- `handleDeviceData(deviceId, data)`: record `Date.now()` in
LastSeen, apply `updateDevice` with `ingestUpdates`, and on success
append a history sample and broadcast the updated device.  There is no
payload validation. -/
def handleDeviceData (reg : List Obj) (ls : LastSeen) (hist : SensorHistory)
    (deviceId : String) (data : Obj) (now : Nat) : IngestOut :=
  let ls2 := lsSet ls deviceId now
  let r := memUpdateDevice reg deviceId (ingestUpdates data) now
  match r.2 with
  | some device => ⟨r.1, ls2, storeSensorHistory hist deviceId data now, [device]⟩
  | none => ⟨r.1, ls2, hist, []⟩

/-- `handleDeviceStatus(deviceId, data)`: `updateDevice(deviceId,
{ status: data.status })`, broadcasting the device on success.  It
never touches `pumpActive`. -/
def handleDeviceStatus (reg : List Obj) (deviceId : String) (data : Obj)
    (now : Nat) : List Obj × List Obj :=
  let r := memUpdateDevice reg deviceId [("status", dget data "status")] now
  match r.2 with
  | some device => (r.1, [device])
  | none => (r.1, [])

/-! ## Command Dispatcher (pump and mode routes, socket handler) -/

/-- An HTTP route outcome as far as the caller sees it. -/
inductive ApiResult where
  | notFound
  | ok (data : Option Obj)
deriving DecidableEq

/-- The observable effects of one command route call: the registry, the
HTTP response, MQTT messages published (topic device id and payload),
and the `deviceUpdate` broadcasts. -/
structure RouteOut where
  reg : List Obj
  response : ApiResult
  published : List (JSValue × Obj)
  emitted : List (Option Obj)
deriving DecidableEq

/-- The update object literal of the pump command (HTTP route and
socket handler build the identical literal). -/
def pumpUpdates (turnOn : Bool) : Obj :=
  [ ("pumpActive", .bool turnOn),
    ("status", .str (if turnOn then "watering" else "online")) ]

/-- `POST /api/devices/:id/pump`: 404 when `getDevice` finds nothing;
otherwise publish `{pump: turnOn}` to `smartfarm/<device.id>/command`
only while MQTT is connected (fire-and-forget), then unconditionally
`updateDevice` with `pumpActive` and the derived status and broadcast
the result. -/
def pumpRoute (reg : List Obj) (id : String) (action : String)
    (mqttConnected : Bool) (now : Nat) : RouteOut :=
  match memGetDevice reg id with
  | none => ⟨reg, .notFound, [], []⟩
  | some device =>
      let turnOn := action == "on"
      let published :=
        if mqttConnected then [(dget device "id", [("pump", JSValue.bool turnOn)])]
        else []
      let r := memUpdateDevice reg id (pumpUpdates turnOn) now
      ⟨r.1, .ok r.2, published, [r.2]⟩

/-- `POST /api/devices/:id/mode`: same shape as the pump route, the
update touching only `mode`. -/
def modeRoute (reg : List Obj) (id : String) (mode : JSValue)
    (mqttConnected : Bool) (now : Nat) : RouteOut :=
  match memGetDevice reg id with
  | none => ⟨reg, .notFound, [], []⟩
  | some device =>
      let published :=
        if mqttConnected then [(dget device "id", [("mode", mode)])]
        else []
      let r := memUpdateDevice reg id [("mode", mode)] now
      ⟨r.1, .ok r.2, published, [r.2]⟩

/-- The observable effects of one `socket.on('pumpControl')` call: the
registry, MQTT messages published, and `deviceUpdate` broadcasts.  The
handler has no response channel back to the requesting client. -/
structure SocketOut where
  reg : List Obj
  published : List (JSValue × Obj)
  emitted : List Obj
deriving DecidableEq

/-- `socket.on('pumpControl', ...)`: no existence check — publish when
connected, `updateDevice`, and broadcast only when the update returned
a device. -/
def socketPumpControl (reg : List Obj) (deviceId : String) (action : String)
    (mqttConnected : Bool) (now : Nat) : SocketOut :=
  let turnOn := action == "on"
  let published :=
    if mqttConnected then [(JSValue.str deviceId, [("pump", JSValue.bool turnOn)])]
    else []
  let r := memUpdateDevice reg deviceId (pumpUpdates turnOn) now
  match r.2 with
  | some updated => ⟨r.1, published, [updated]⟩
  | none => ⟨r.1, published, []⟩

/-! ## History query (`getSensorHistory`, memory branch) -/

/-- JS `arr.slice(start)` for an integer `start` (negative counts from
the end; `slice(-0)` is `slice(0)`). -/
def jsSliceFrom (l : List Sample) (start : Int) : List Sample :=
  if start < 0 then l.drop (l.length - (-start).toNat)
  else l.drop start.toNat

/-- `getSensorHistory` (memory branch): when either bound is present,
filter out samples before `startDate` or after `endDate`, then return
`history.slice(-limit)`. -/
def memGetSensorHistory (hist : List Sample) (limit : Int)
    (startDate endDate : Option Nat) : List Sample :=
  let filtered :=
    if startDate.isSome || endDate.isSome then
      hist.filter (fun h =>
        (match startDate with
         | some a => decide (¬ h.timestamp < a)
         | none => true) &&
        (match endDate with
         | some b => decide (¬ h.timestamp > b)
         | none => true))
    else hist
  jsSliceFrom filtered (-limit)

/-! ## Structural lemmas about the Registry update -/

theorem memUpdateDevice_not_found (reg : List Obj) (id : String) (u : Obj)
    (now : Nat) (h : memGetDevice reg id = none) :
    memUpdateDevice reg id u now = (reg, none) := by
  induction reg with
  | nil => rfl
  | cons d rest ih =>
      by_cases hd : hasId d id
      · simp [memGetDevice, List.find?_cons, hd] at h
      · have hrest : memGetDevice rest id = none := by
          simpa [memGetDevice, List.find?_cons, hd] using h
        simp [memUpdateDevice, hd, ih hrest]

theorem memUpdateDevice_found (reg : List Obj) (id : String) (u : Obj)
    (now : Nat) (d0 : Obj) (h : memGetDevice reg id = some d0) :
    (memUpdateDevice reg id u now).2 =
      some (objSet (objAssign d0 u) "lastUpdate" (.date now)) ∧
    objSet (objAssign d0 u) "lastUpdate" (.date now) ∈
      (memUpdateDevice reg id u now).1 := by
  induction reg with
  | nil => simp [memGetDevice] at h
  | cons d rest ih =>
      by_cases hd : hasId d id
      · have hd0 : d = d0 := by
          simpa [memGetDevice, List.find?_cons, hd] using h
        subst hd0
        simp [memUpdateDevice, hd]
      · have hrest : memGetDevice rest id = some d0 := by
          simpa [memGetDevice, List.find?_cons, hd] using h
        have := ih hrest
        simp only [memUpdateDevice, if_neg hd]
        exact ⟨this.1, List.mem_cons_of_mem _ this.2⟩

/-! ## Claim C1 -/

/-- C1: on every liveness sweep (period `SWEEP_INTERVAL` = 30 s,
silence timeout `OFFLINE_TIMEOUT` = 20 s), every registered device
whose LastSeen entry is older than the timeout (entries are written as
`Date.now()`, hence nonzero) and whose current status is not already
`offline` is set to `offline`, and exactly one `deviceUpdate` event
carrying the offline snapshot is emitted per such device; every other
device is left unchanged and contributes no event, so a device already
`offline` that stays silent produces no further events on any later
sweep. -/
theorem sweep_marks_silent_devices_offline_once
    (reg : List Obj) (ls : LastSeen) (now now2 : Nat) :
    (checkOfflineDevices reg ls now).1 =
      reg.map (fun d => if qualifiesOffline ls now d then markOffline d else d) ∧
    (checkOfflineDevices reg ls now).2 =
      (reg.filter (qualifiesOffline ls now)).map markOffline ∧
    (∀ d, qualifiesOffline ls now d = true →
      checkOfflineDevices [markOffline d] ls now2 = ([markOffline d], [])) := by
  refine ⟨by rw [checkOfflineDevices_eq], by rw [checkOfflineDevices_eq], ?_⟩
  intro d _
  have hq : qualifiesOffline ls now2 (markOffline d) = false := by
    unfold qualifiesOffline
    have hst : objGet (markOffline d) "status" = some (.str "offline") :=
      objGet_objSet_self _ _ _
    have hid : lsOfDev ls (markOffline d) = lsOfDev ls d := by
      unfold lsOfDev devId markOffline
      rw [objGet_objSet_ne _ _ _ _ (by decide)]
    rw [hid]
    cases lsOfDev ls d with
    | none => rfl
    | some t => simp [hst]
  rw [checkOfflineDevices_eq]
  simp [hq]

/-- Witness for C1: the concrete device `d1`, last seen at 1000 ms and
swept at 30000 ms, is marked offline with exactly one event; re-sweeping
the already-offline device at 60000 ms emits nothing. -/
theorem sweep_marks_silent_devices_offline_once_witness :
    (checkOfflineDevices
        [[("id", JSValue.str "d1"), ("status", JSValue.str "watering"),
          ("pumpActive", JSValue.bool true)]]
        [("d1", 1000)] 30000).2 =
      [[("id", JSValue.str "d1"), ("status", JSValue.str "offline"),
        ("pumpActive", JSValue.bool true)]] ∧
    checkOfflineDevices
        [[("id", JSValue.str "d1"), ("status", JSValue.str "offline"),
          ("pumpActive", JSValue.bool true)]]
        [("d1", 1000)] 60000 =
      ([[("id", JSValue.str "d1"), ("status", JSValue.str "offline"),
         ("pumpActive", JSValue.bool true)]], []) := by
  have h := sweep_marks_silent_devices_offline_once
    [[("id", JSValue.str "d1"), ("status", JSValue.str "watering"),
      ("pumpActive", JSValue.bool true)]]
    [("d1", 1000)] 30000 60000
  refine ⟨by rw [h.2.1]; decide, ?_⟩
  have h3 := h.2.2
    [("id", JSValue.str "d1"), ("status", JSValue.str "watering"),
     ("pumpActive", JSValue.bool true)] (by decide)
  exact h3

/-! ## Claim C9 -/

/-- C9: a registered device with no LastSeen entry (it has never
reported telemetry since process start) is left untouched by the
liveness sweep — at any sweep time its Registry record, in particular
its status, is exactly what it was before, and its sweep step emits no
event. -/
theorem sweep_ignores_never_seen_device (reg : List Obj) (ls : LastSeen)
    (now : Nat) (i : Nat) (hi : i < reg.length)
    (h : lsOfDev ls (reg.get ⟨i, hi⟩) = none) :
    (checkOfflineDevices reg ls now).1.get? i = some (reg.get ⟨i, hi⟩) ∧
    sweepDevice ls now (reg.get ⟨i, hi⟩) = (reg.get ⟨i, hi⟩, []) := by
  have hq : qualifiesOffline ls now (reg.get ⟨i, hi⟩) = false := by
    unfold qualifiesOffline
    rw [h]
  have hq2 : qualifiesOffline ls now reg[i] = false := hq
  constructor
  · rw [checkOfflineDevices_eq]
    simp only [List.get?_map]
    rw [List.get?_eq_get hi]
    simp [hq2]
  · rw [sweepDevice_eq, hq]
    simp

/-- Witness for C9: the seeded device with an empty LastSeen map is
untouched by a sweep at any late time. -/
theorem sweep_ignores_never_seen_device_witness :
    (checkOfflineDevices [seedDevice 0] [] 1000000).1.get? 0 =
      some (([seedDevice 0].get ⟨0, by decide⟩)) ∧
    sweepDevice [] 1000000 ([seedDevice 0].get ⟨0, by decide⟩) =
      (([seedDevice 0].get ⟨0, by decide⟩), []) :=
  sweep_ignores_never_seen_device [seedDevice 0] [] 1000000 0 (by decide)
    (by decide)

/-! ## Field lemmas for updated records -/

theorem objGet_updated_of_mem (d0 u : Obj) (now : Nat) (k : String)
    (hk : k ≠ "lastUpdate") (hnd : (keys u).Nodup) (hm : k ∈ keys u) :
    objGet (objSet (objAssign d0 u) "lastUpdate" (.date now)) k = objGet u k := by
  rw [objGet_objSet_ne _ _ _ _ hk, objGet_objAssign_mem _ _ _ hnd hm]

theorem objGet_updated_of_not_mem (d0 u : Obj) (now : Nat) (k : String)
    (hk : k ≠ "lastUpdate") (hm : k ∉ keys u) :
    objGet (objSet (objAssign d0 u) "lastUpdate" (.date now)) k = objGet d0 k := by
  rw [objGet_objSet_ne _ _ _ _ hk, objGet_objAssign_not_mem _ _ _ hm]

theorem keys_ingestUpdates (data : Obj) :
    keys (ingestUpdates data) =
      ["temperature", "humidity", "soilMoisture", "pumpActive", "status"] := rfl

theorem keys_pumpUpdates (b : Bool) :
    keys (pumpUpdates b) = ["pumpActive", "status"] := rfl

theorem jsTruthy_jsOrFalse (v : JSValue) : jsTruthy (jsOrFalse v) = jsTruthy v := by
  unfold jsOrFalse
  by_cases h : jsTruthy v
  · rw [if_pos h]
  · rw [if_neg h]
    rw [Bool.not_eq_true] at h
    rw [h]
    rfl

theorem lsGet_lsSet_self (ls : LastSeen) (k : String) (t : Nat) :
    lsGet (lsSet ls k t) k = some t := by
  induction ls with
  | nil => simp [lsSet, lsGet]
  | cons kv rest ih =>
      by_cases h : kv.1 = k
      · simp [lsSet, lsGet, h]
      · simp [lsSet, lsGet, h, ih]

/-! ## Claim C4 -/

/-- C4: for every telemetry message handled for a registered device,
the Registry record afterwards (which is also the broadcast snapshot)
carries the message's `temperature`, `humidity` and `soilPercent`
values verbatim — last writer wins — and its status is `watering`
exactly when the message's actuator flag `pumpActive` is truthy, and
`online` otherwise. -/
theorem ingest_stores_message_values
    (reg : List Obj) (ls : LastSeen) (hist : SensorHistory)
    (deviceId : String) (data : Obj) (now : Nat) (d0 : Obj)
    (h : memGetDevice reg deviceId = some d0) :
    ∃ dev,
      (handleDeviceData reg ls hist deviceId data now).events = [dev] ∧
      dev ∈ (handleDeviceData reg ls hist deviceId data now).reg ∧
      objGet dev "temperature" = some (dget data "temperature") ∧
      objGet dev "humidity" = some (dget data "humidity") ∧
      objGet dev "soilMoisture" = some (dget data "soilPercent") ∧
      objGet dev "status" = some (.str
        (if jsTruthy (dget data "pumpActive") then "watering" else "online")) := by
  have hf := memUpdateDevice_found reg deviceId (ingestUpdates data) now d0 h
  have hnd : (keys (ingestUpdates data)).Nodup := by
    rw [keys_ingestUpdates]; decide
  refine ⟨objSet (objAssign d0 (ingestUpdates data)) "lastUpdate" (.date now),
    ?_, ?_, ?_, ?_, ?_, ?_⟩
  · simp [handleDeviceData, hf.1]
  · simp only [handleDeviceData]
    rw [hf.1]
    exact hf.2
  · rw [objGet_updated_of_mem _ _ _ _ (by decide) hnd (by rw [keys_ingestUpdates]; decide)]
    rfl
  · rw [objGet_updated_of_mem _ _ _ _ (by decide) hnd (by rw [keys_ingestUpdates]; decide)]
    rfl
  · rw [objGet_updated_of_mem _ _ _ _ (by decide) hnd (by rw [keys_ingestUpdates]; decide)]
    rfl
  · rw [objGet_updated_of_mem _ _ _ _ (by decide) hnd (by rw [keys_ingestUpdates]; decide)]
    rfl

/-- Witness for C4, the spec's own scenario: telemetry
`{temperature: 30, humidity: 60, soilPercent: 50}` for the registered
`device_001` yields status `online` and `soilMoisture` 50. -/
theorem ingest_stores_message_values_witness :
    ∃ dev,
      (handleDeviceData [seedDevice 0] [] (fun _ => []) "device_001"
          [("temperature", JSValue.num 30), ("humidity", JSValue.num 60),
           ("soilPercent", JSValue.num 50)] 1000).events = [dev] ∧
      dev ∈ (handleDeviceData [seedDevice 0] [] (fun _ => []) "device_001"
          [("temperature", JSValue.num 30), ("humidity", JSValue.num 60),
           ("soilPercent", JSValue.num 50)] 1000).reg ∧
      objGet dev "temperature" = some (dget
        [("temperature", JSValue.num 30), ("humidity", JSValue.num 60),
         ("soilPercent", JSValue.num 50)] "temperature") ∧
      objGet dev "humidity" = some (dget
        [("temperature", JSValue.num 30), ("humidity", JSValue.num 60),
         ("soilPercent", JSValue.num 50)] "humidity") ∧
      objGet dev "soilMoisture" = some (dget
        [("temperature", JSValue.num 30), ("humidity", JSValue.num 60),
         ("soilPercent", JSValue.num 50)] "soilPercent") ∧
      objGet dev "status" = some (.str
        (if jsTruthy (dget
            [("temperature", JSValue.num 30), ("humidity", JSValue.num 60),
             ("soilPercent", JSValue.num 50)] "pumpActive")
          then "watering" else "online")) :=
  ingest_stores_message_values [seedDevice 0] [] (fun _ => []) "device_001"
    [("temperature", JSValue.num 30), ("humidity", JSValue.num 60),
     ("soilPercent", JSValue.num 50)] 1000 (seedDevice 0) rfl

/-! ## Claim C6 -/

/-- C6: a successful `updateDevice(id, patch)` changes only the fields
present in the patch — every other field of the stored record keeps its
previous value — stores the patch's fields verbatim, and refreshes
`lastUpdate` as a side effect whatever the patch contains. -/
theorem update_changes_only_patch_fields (reg : List Obj) (id : String)
    (patch : Obj) (now : Nat) (d0 : Obj)
    (h : memGetDevice reg id = some d0) (hnd : (keys patch).Nodup) :
    ∃ dev, (memUpdateDevice reg id patch now).2 = some dev ∧
      dev ∈ (memUpdateDevice reg id patch now).1 ∧
      (∀ k, k ∉ keys patch → k ≠ "lastUpdate" → objGet dev k = objGet d0 k) ∧
      (∀ k, k ∈ keys patch → k ≠ "lastUpdate" → objGet dev k = objGet patch k) ∧
      objGet dev "lastUpdate" = some (.date now) := by
  have hf := memUpdateDevice_found reg id patch now d0 h
  exact ⟨_, hf.1, hf.2,
    fun k hk hne => objGet_updated_of_not_mem _ _ _ _ hne hk,
    fun k hk hne => objGet_updated_of_mem _ _ _ _ hne hnd hk,
    objGet_objSet_self _ _ _⟩

/-- Witness for C6: patching only `name` on the seeded device. -/
theorem update_changes_only_patch_fields_witness :
    ∃ dev, (memUpdateDevice [seedDevice 3] "device_001"
        [("name", JSValue.str "renamed")] 7).2 = some dev ∧
      dev ∈ (memUpdateDevice [seedDevice 3] "device_001"
        [("name", JSValue.str "renamed")] 7).1 ∧
      (∀ k, k ∉ keys [("name", JSValue.str "renamed")] → k ≠ "lastUpdate" →
        objGet dev k = objGet (seedDevice 3) k) ∧
      (∀ k, k ∈ keys [("name", JSValue.str "renamed")] → k ≠ "lastUpdate" →
        objGet dev k = objGet [("name", JSValue.str "renamed")] k) ∧
      objGet dev "lastUpdate" = some (.date 7) :=
  update_changes_only_patch_fields [seedDevice 3] "device_001"
    [("name", JSValue.str "renamed")] 7 (seedDevice 3) rfl (by decide)

/-! ## Claim C2 -/

theorem getLast?_concat_sample (l : List Sample) (s : Sample) :
    (l ++ [s]).getLast? = some s := by
  simp [List.getLast?_concat]

theorem storeSensorHistory_self (hist : SensorHistory) (deviceId : String)
    (data : Obj) (now : Nat) :
    storeSensorHistory hist deviceId data now deviceId =
      (if (hist deviceId ++
            [(⟨now, dget data "temperature", dget data "humidity",
               dget data "soilPercent"⟩ : Sample)]).length > 720
       then (hist deviceId ++
            [(⟨now, dget data "temperature", dget data "humidity",
               dget data "soilPercent"⟩ : Sample)]).tail
       else hist deviceId ++
            [(⟨now, dget data "temperature", dget data "humidity",
               dget data "soilPercent"⟩ : Sample)]) := by
  simp [storeSensorHistory]

theorem capPush_getLast (l : List Sample) (s : Sample) :
    (if (l ++ [s]).length > 720 then (l ++ [s]).tail else l ++ [s]).getLast? =
      some s := by
  by_cases hlen : (l ++ [s]).length > 720
  · rw [if_pos hlen]
    cases l with
    | nil => simp at hlen
    | cons x xs =>
        simp only [List.cons_append, List.tail_cons]
        exact getLast?_concat_sample _ _
  · rw [if_neg hlen]
    exact getLast?_concat_sample _ _

theorem capPush_length (l : List Sample) (s : Sample) :
    (if (l ++ [s]).length > 720 then (l ++ [s]).tail else l ++ [s]).length =
      if l.length + 1 > 720 then l.length else l.length + 1 := by
  have h1 : (l ++ [s]).length = l.length + 1 := by simp
  by_cases hlen : l.length + 1 > 720
  · rw [if_pos (by rw [h1]; exact hlen), if_pos hlen, List.length_tail, h1]
    omega
  · rw [if_neg (by rw [h1]; exact hlen), if_neg hlen, h1]

/-- C2 counterexample: telemetry whose required `temperature` field is
the non-numeric string `"hot"` is not discarded: the Registry record of
`device_001` ends up holding that very string and a history sample is
appended, so a malformed message does change state. -/
theorem ingest_accepts_non_numeric_payload :
    (((handleDeviceData [seedDevice 0] [] (fun _ => []) "device_001"
        [("temperature", JSValue.str "hot")] 5000).reg.head?).map
      (fun d => objGet d "temperature") = some (some (JSValue.str "hot"))) ∧
    ((handleDeviceData [seedDevice 0] [] (fun _ => []) "device_001"
        [("temperature", JSValue.str "hot")] 5000).hist "device_001").length = 1 := by
  exact ⟨rfl, rfl⟩

/-- C2 amended: inbound telemetry is never validated: whatever the
payload fields hold (numeric or not, or absent), `handleDeviceData` on
a registered device records LastSeen, stores the payload's values
verbatim in the Registry, broadcasts the result, and appends a history
sample carrying those same values (the per-device list being capped at
720 entries).  Only a message whose raw MQTT payload fails JSON parsing
is logged and discarded. -/
theorem ingest_accepts_any_payload
    (reg : List Obj) (ls : LastSeen) (hist : SensorHistory)
    (deviceId : String) (data : Obj) (now : Nat) (d0 : Obj)
    (h : memGetDevice reg deviceId = some d0) :
    ∃ dev,
      (handleDeviceData reg ls hist deviceId data now).events = [dev] ∧
      objGet dev "temperature" = some (dget data "temperature") ∧
      lsGet (handleDeviceData reg ls hist deviceId data now).lastSeen deviceId =
        some now ∧
      ((handleDeviceData reg ls hist deviceId data now).hist deviceId).getLast? =
        some ⟨now, dget data "temperature", dget data "humidity",
              dget data "soilPercent"⟩ ∧
      ((handleDeviceData reg ls hist deviceId data now).hist deviceId).length =
        (if (hist deviceId).length + 1 > 720 then (hist deviceId).length
         else (hist deviceId).length + 1) := by
  have hf := memUpdateDevice_found reg deviceId (ingestUpdates data) now d0 h
  have hnd : (keys (ingestUpdates data)).Nodup := by
    rw [keys_ingestUpdates]; decide
  refine ⟨objSet (objAssign d0 (ingestUpdates data)) "lastUpdate" (.date now),
    ?_, ?_, ?_, ?_, ?_⟩
  · simp [handleDeviceData, hf.1]
  · rw [objGet_updated_of_mem _ _ _ _ (by decide) hnd (by rw [keys_ingestUpdates]; decide)]
    rfl
  · simp only [handleDeviceData]
    rw [hf.1]
    exact lsGet_lsSet_self ls deviceId now
  · simp only [handleDeviceData]
    rw [hf.1]
    simp only []
    rw [storeSensorHistory_self]
    exact capPush_getLast _ _
  · simp only [handleDeviceData]
    rw [hf.1]
    simp only []
    rw [storeSensorHistory_self]
    exact capPush_length _ _

/-- Witness for C2 amended: a payload whose temperature is a string and
whose other required fields are absent is stored all the same. -/
theorem ingest_accepts_any_payload_witness :
    ∃ dev,
      (handleDeviceData [seedDevice 0] [] (fun _ => []) "device_001"
          [("temperature", JSValue.str "hot")] 5000).events = [dev] ∧
      objGet dev "temperature" =
        some (dget [("temperature", JSValue.str "hot")] "temperature") ∧
      lsGet (handleDeviceData [seedDevice 0] [] (fun _ => []) "device_001"
          [("temperature", JSValue.str "hot")] 5000).lastSeen "device_001" =
        some 5000 ∧
      ((handleDeviceData [seedDevice 0] [] (fun _ => []) "device_001"
          [("temperature", JSValue.str "hot")] 5000).hist "device_001").getLast? =
        some ⟨5000, dget [("temperature", JSValue.str "hot")] "temperature",
              dget [("temperature", JSValue.str "hot")] "humidity",
              dget [("temperature", JSValue.str "hot")] "soilPercent"⟩ ∧
      ((handleDeviceData [seedDevice 0] [] (fun _ => []) "device_001"
          [("temperature", JSValue.str "hot")] 5000).hist "device_001").length =
        (if ((fun _ => ([] : List Sample)) "device_001").length + 1 > 720
         then ((fun _ => ([] : List Sample)) "device_001").length
         else ((fun _ => ([] : List Sample)) "device_001").length + 1) :=
  ingest_accepts_any_payload [seedDevice 0] [] (fun _ => []) "device_001"
    [("temperature", JSValue.str "hot")] 5000 (seedDevice 0) rfl

/-! ## Claim C3 -/

/-- The invariant the claim asserts after every core operation: the
status is `watering` exactly when the stored `pumpActive` is truthy. -/
def wateringIffPump (d : Obj) : Prop :=
  objGet d "status" = some (.str "watering") ↔ jsTruthy (dget d "pumpActive") = true

instance (d : Obj) : Decidable (wateringIffPump d) := by
  unfold wateringIffPump
  infer_instance

/-- C3 counterexample: start from the seeded registry, ingest telemetry
with `pumpActive: true` (status becomes `watering`, the equivalence
holds), then run the liveness sweep 29 s later: the sweep sets status
to `offline` but leaves `pumpActive == true`, so after this core
operation the claimed equivalence is false. -/
theorem sweep_breaks_watering_pump_equivalence :
    ((checkOfflineDevices
        (handleDeviceData [seedDevice 0] [] (fun _ => []) "device_001"
          [("temperature", JSValue.num 30), ("humidity", JSValue.num 60),
           ("soilPercent", JSValue.num 50), ("pumpActive", JSValue.bool true)] 1000).reg
        (handleDeviceData [seedDevice 0] [] (fun _ => []) "device_001"
          [("temperature", JSValue.num 30), ("humidity", JSValue.num 60),
           ("soilPercent", JSValue.num 50), ("pumpActive", JSValue.bool true)] 1000).lastSeen
        30000).1.head?.map
      (fun d => (objGet d "status", objGet d "pumpActive")) =
        some (some (JSValue.str "offline"), some (JSValue.bool true))) ∧
    ¬ (∀ d ∈ (checkOfflineDevices
        (handleDeviceData [seedDevice 0] [] (fun _ => []) "device_001"
          [("temperature", JSValue.num 30), ("humidity", JSValue.num 60),
           ("soilPercent", JSValue.num 50), ("pumpActive", JSValue.bool true)] 1000).reg
        (handleDeviceData [seedDevice 0] [] (fun _ => []) "device_001"
          [("temperature", JSValue.num 30), ("humidity", JSValue.num 60),
           ("soilPercent", JSValue.num 50), ("pumpActive", JSValue.bool true)] 1000).lastSeen
        30000).1, wateringIffPump d) := by
  constructor
  · rfl
  · decide

/-- C3 amended: the equivalence `status == watering` iff truthy
`pumpActive` is established by telemetry ingest and by pump commands
(HTTP route and socket handler) on their broadcast snapshot, and is
preserved by mode commands; it is NOT maintained by the liveness sweep
(which sets `offline` while leaving `pumpActive`) or by raw
device-status messages (which set status alone). -/
theorem watering_pump_equivalence_mixed
    (reg : List Obj) (ls : LastSeen) (hist : SensorHistory)
    (deviceId : String) (data : Obj) (action : String) (mode : JSValue)
    (conn : Bool) (now : Nat) (d0 : Obj)
    (h : memGetDevice reg deviceId = some d0) :
    (∀ dev, dev ∈ (handleDeviceData reg ls hist deviceId data now).events →
        wateringIffPump dev) ∧
    (∀ dev, some dev ∈ (pumpRoute reg deviceId action conn now).emitted →
        wateringIffPump dev) ∧
    (∀ dev, dev ∈ (socketPumpControl reg deviceId action conn now).emitted →
        wateringIffPump dev) ∧
    (wateringIffPump d0 →
      ∀ dev, some dev ∈ (modeRoute reg deviceId mode conn now).emitted →
        wateringIffPump dev) := by
  have hp := memUpdateDevice_found reg deviceId (pumpUpdates (action == "on")) now d0 h
  have hpev : wateringIffPump
      (objSet (objAssign d0 (pumpUpdates (action == "on"))) "lastUpdate" (.date now)) := by
    have hst := objGet_updated_of_mem d0 (pumpUpdates (action == "on")) now "status"
      (by decide) (by rw [keys_pumpUpdates]; decide) (by rw [keys_pumpUpdates]; decide)
    have hpa := objGet_updated_of_mem d0 (pumpUpdates (action == "on")) now "pumpActive"
      (by decide) (by rw [keys_pumpUpdates]; decide) (by rw [keys_pumpUpdates]; decide)
    unfold wateringIffPump dget
    rw [hst, hpa]
    cases action == "on" <;> simp [pumpUpdates, objGet, jsTruthy]
  refine ⟨?_, ?_, ?_, ?_⟩
  · intro dev hdev
    have hf := memUpdateDevice_found reg deviceId (ingestUpdates data) now d0 h
    have hnd : (keys (ingestUpdates data)).Nodup := by
      rw [keys_ingestUpdates]; decide
    simp only [handleDeviceData] at hdev
    rw [hf.1] at hdev
    simp only [List.mem_singleton] at hdev
    subst hdev
    have hst := objGet_updated_of_mem d0 (ingestUpdates data) now "status"
      (by decide) hnd (by rw [keys_ingestUpdates]; decide)
    have hpa := objGet_updated_of_mem d0 (ingestUpdates data) now "pumpActive"
      (by decide) hnd (by rw [keys_ingestUpdates]; decide)
    unfold wateringIffPump dget
    rw [hst, hpa]
    cases hb : jsTruthy (dget data "pumpActive") <;>
      simp [ingestUpdates, objGet, jsTruthy_jsOrFalse, hb]
  · intro dev hdev
    simp only [pumpRoute, h] at hdev
    rw [hp.1] at hdev
    simp only [List.mem_singleton, Option.some_inj] at hdev
    subst hdev
    exact hpev
  · intro dev hdev
    simp only [socketPumpControl] at hdev
    rw [hp.1] at hdev
    simp only [List.mem_singleton] at hdev
    subst hdev
    exact hpev
  · intro hd0 dev hdev
    have hm := memUpdateDevice_found reg deviceId [("mode", mode)] now d0 h
    simp only [modeRoute, h] at hdev
    rw [hm.1] at hdev
    simp only [List.mem_singleton, Option.some_inj] at hdev
    subst hdev
    have hst := objGet_updated_of_not_mem d0 [("mode", mode)] now "status"
      (by decide) (by simp [keys])
    have hpa := objGet_updated_of_not_mem d0 [("mode", mode)] now "pumpActive"
      (by decide) (by simp [keys])
    unfold wateringIffPump dget at hd0 ⊢
    rw [hst, hpa]
    exact hd0

/-- Witness for C3 amended: the equivalence holds on the snapshot
broadcast by ingesting `pumpActive: true` telemetry for `d1`. -/
theorem watering_pump_equivalence_mixed_witness :
    wateringIffPump
      (objSet (objAssign
          [("id", JSValue.str "d1"), ("status", JSValue.str "online"),
           ("pumpActive", JSValue.bool false)]
          (ingestUpdates [("pumpActive", JSValue.bool true)]))
        "lastUpdate" (.date 42)) :=
  (watering_pump_equivalence_mixed
      [[("id", JSValue.str "d1"), ("status", JSValue.str "online"),
        ("pumpActive", JSValue.bool false)]]
      [] (fun _ => []) "d1" [("pumpActive", JSValue.bool true)] "on"
      (JSValue.str "auto") false 42
      [("id", JSValue.str "d1"), ("status", JSValue.str "online"),
       ("pumpActive", JSValue.bool false)] rfl).1
    _ (by decide)

/-! ## Claim C5 -/

/-- C5 counterexample: a socket `pumpControl` command for the
unregistered id `ghost` leaves the Registry unchanged but produces no
output whatsoever — no not-found indication reaches anyone (the HTTP
routes, by contrast, return 404). -/
theorem socket_pump_missing_device_is_silent :
    socketPumpControl [seedDevice 0] "ghost" "on" false 5000 =
      ⟨[seedDevice 0], [], []⟩ := rfl

/-- C5 amended: the HTTP pump and mode routes on a missing device fail
with NotFound, leaving the Registry unchanged and publishing/emitting
nothing; the socket `pumpControl` path also leaves the Registry
unchanged but surfaces no indication at all.  When the device exists,
every path applies the Registry update and broadcasts the updated
snapshot identically whether or not the outbound MQTT transport is
connected. -/
theorem command_routes_validate_then_update
    (reg : List Obj) (id : String) (action : String) (mode : JSValue)
    (conn : Bool) (now : Nat) :
    (memGetDevice reg id = none →
        pumpRoute reg id action conn now = ⟨reg, .notFound, [], []⟩ ∧
        modeRoute reg id mode conn now = ⟨reg, .notFound, [], []⟩ ∧
        (socketPumpControl reg id action conn now).reg = reg ∧
        (socketPumpControl reg id action conn now).emitted = []) ∧
    (∀ d0, memGetDevice reg id = some d0 →
        (∃ dev, (pumpRoute reg id action conn now).response = .ok (some dev) ∧
          (pumpRoute reg id action conn now).emitted = [some dev] ∧
          dev ∈ (pumpRoute reg id action conn now).reg ∧
          objGet dev "pumpActive" = some (.bool (action == "on")) ∧
          objGet dev "status" =
            some (.str (if action == "on" then "watering" else "online"))) ∧
        (∃ dev, (modeRoute reg id mode conn now).response = .ok (some dev) ∧
          (modeRoute reg id mode conn now).emitted = [some dev] ∧
          dev ∈ (modeRoute reg id mode conn now).reg ∧
          objGet dev "mode" = some mode) ∧
        (∃ dev, (socketPumpControl reg id action conn now).emitted = [dev] ∧
          dev ∈ (socketPumpControl reg id action conn now).reg ∧
          objGet dev "pumpActive" = some (.bool (action == "on")) ∧
          objGet dev "status" =
            some (.str (if action == "on" then "watering" else "online")))) ∧
    ((pumpRoute reg id action conn now).reg =
        (pumpRoute reg id action true now).reg ∧
      (pumpRoute reg id action conn now).response =
        (pumpRoute reg id action true now).response ∧
      (pumpRoute reg id action conn now).emitted =
        (pumpRoute reg id action true now).emitted ∧
      (modeRoute reg id mode conn now).reg =
        (modeRoute reg id mode true now).reg ∧
      (modeRoute reg id mode conn now).response =
        (modeRoute reg id mode true now).response ∧
      (modeRoute reg id mode conn now).emitted =
        (modeRoute reg id mode true now).emitted ∧
      (socketPumpControl reg id action conn now).reg =
        (socketPumpControl reg id action true now).reg ∧
      (socketPumpControl reg id action conn now).emitted =
        (socketPumpControl reg id action true now).emitted) := by
  refine ⟨?_, ?_, ?_⟩
  · intro hnone
    refine ⟨by simp [pumpRoute, hnone], by simp [modeRoute, hnone], ?_, ?_⟩
    · simp [socketPumpControl, memUpdateDevice_not_found _ _ _ _ hnone]
    · simp [socketPumpControl, memUpdateDevice_not_found _ _ _ _ hnone]
  · intro d0 hd0
    refine ⟨?_, ?_, ?_⟩
    · have hp := memUpdateDevice_found reg id (pumpUpdates (action == "on")) now d0 hd0
      refine ⟨objSet (objAssign d0 (pumpUpdates (action == "on"))) "lastUpdate"
        (.date now), ?_, ?_, ?_, ?_, ?_⟩
      · simp only [pumpRoute, hd0]
        rw [hp.1]
      · simp only [pumpRoute, hd0]
        rw [hp.1]
      · simp only [pumpRoute, hd0]
        exact hp.2
      · rw [objGet_updated_of_mem _ _ _ _ (by decide)
          (by rw [keys_pumpUpdates]; decide) (by rw [keys_pumpUpdates]; decide)]
        rfl
      · rw [objGet_updated_of_mem _ _ _ _ (by decide)
          (by rw [keys_pumpUpdates]; decide) (by rw [keys_pumpUpdates]; decide)]
        rfl
    · have hm := memUpdateDevice_found reg id [("mode", mode)] now d0 hd0
      refine ⟨objSet (objAssign d0 [("mode", mode)]) "lastUpdate" (.date now),
        ?_, ?_, ?_, ?_⟩
      · simp only [modeRoute, hd0]
        rw [hm.1]
      · simp only [modeRoute, hd0]
        rw [hm.1]
      · simp only [modeRoute, hd0]
        exact hm.2
      · rw [objGet_updated_of_mem _ _ _ _ (by decide) (by simp [keys])
          (by simp [keys])]
        rfl
    · have hp := memUpdateDevice_found reg id (pumpUpdates (action == "on")) now d0 hd0
      refine ⟨objSet (objAssign d0 (pumpUpdates (action == "on"))) "lastUpdate"
        (.date now), ?_, ?_, ?_, ?_⟩
      · simp only [socketPumpControl]
        rw [hp.1]
      · simp only [socketPumpControl]
        rw [hp.1]
        exact hp.2
      · rw [objGet_updated_of_mem _ _ _ _ (by decide)
          (by rw [keys_pumpUpdates]; decide) (by rw [keys_pumpUpdates]; decide)]
        rfl
      · rw [objGet_updated_of_mem _ _ _ _ (by decide)
          (by rw [keys_pumpUpdates]; decide) (by rw [keys_pumpUpdates]; decide)]
        rfl
  · refine ⟨?_, ?_, ?_, ?_, ?_, ?_, ?_, ?_⟩ <;>
      first
        | (cases hm : memGetDevice reg id <;> simp [pumpRoute, modeRoute, hm])
        | (cases hr : (memUpdateDevice reg id (pumpUpdates (action == "on")) now).2 <;>
            simp [socketPumpControl, hr])

/-- Witness for C5 amended: the unknown id `ghost` yields NotFound from
the pump route with the Registry unchanged, and the registered
`device_001` is updated and broadcast with MQTT disconnected. -/
theorem command_routes_validate_then_update_witness :
    pumpRoute [seedDevice 0] "ghost" "on" false 7 =
      ⟨[seedDevice 0], .notFound, [], []⟩ ∧
    (∃ dev, (pumpRoute [seedDevice 0] "device_001" "on" false 7).response =
        .ok (some dev) ∧
      (pumpRoute [seedDevice 0] "device_001" "on" false 7).emitted = [some dev] ∧
      dev ∈ (pumpRoute [seedDevice 0] "device_001" "on" false 7).reg ∧
      objGet dev "pumpActive" = some (.bool ("on" == "on")) ∧
      objGet dev "status" =
        some (.str (if "on" == "on" then "watering" else "online"))) ∧
    (∃ dev, (socketPumpControl [seedDevice 0] "device_001" "on" false 7).emitted =
        [dev] ∧
      dev ∈ (socketPumpControl [seedDevice 0] "device_001" "on" false 7).reg ∧
      objGet dev "pumpActive" = some (.bool ("on" == "on")) ∧
      objGet dev "status" =
        some (.str (if "on" == "on" then "watering" else "online"))) :=
  ⟨((command_routes_validate_then_update [seedDevice 0] "ghost" "on"
      (JSValue.str "auto") false 7).1 rfl).1,
   ((command_routes_validate_then_update [seedDevice 0] "device_001" "on"
      (JSValue.str "auto") false 7).2.1 (seedDevice 0) rfl).1,
   ((command_routes_validate_then_update [seedDevice 0] "device_001" "on"
      (JSValue.str "auto") false 7).2.1 (seedDevice 0) rfl).2.2⟩

/-! ## Claim C7 -/

/-- C7 counterexample: creating a second device with the already-present
id `device_001` in the in-memory fallback succeeds (the device itself
is returned, no error) and the registry afterwards holds two records
with that id. -/
theorem create_stores_duplicate_id :
    ((memCreateDevice [seedDevice 0]
        [("id", JSValue.str "device_001"), ("name", JSValue.str "copy")]).1.countP
      (fun d => hasId d "device_001")) = 2 ∧
    (memCreateDevice [seedDevice 0]
        [("id", JSValue.str "device_001"), ("name", JSValue.str "copy")]).2 =
      [("id", JSValue.str "device_001"), ("name", JSValue.str "copy")] :=
  ⟨rfl, rfl⟩

/-- C7 amended: the in-memory `createDevice` performs no duplicate
check: it appends the device and returns it as a success, so a create
whose id already exists leaves at least two records with that id in the
Registry (duplicate rejection happens only on the database path, via
the `devices` table's primary key). -/
theorem create_appends_unconditionally (reg : List Obj) (device : Obj)
    (id : String) (hdev : hasId device id = true)
    (hex : ∃ d0 ∈ reg, hasId d0 id = true) :
    2 ≤ (memCreateDevice reg device).1.countP (fun d => hasId d id) ∧
    (memCreateDevice reg device).2 = device := by
  constructor
  · have h1 : 0 < reg.countP (fun d => hasId d id) := by
      rw [List.countP_pos]
      obtain ⟨d0, hd0, hp⟩ := hex
      exact ⟨d0, hd0, hp⟩
    have h2 : (memCreateDevice reg device).1.countP (fun d => hasId d id) =
        reg.countP (fun d => hasId d id) + 1 := by
      simp [memCreateDevice, List.countP_append, List.countP_cons, hdev]
    omega
  · rfl

/-- Witness for C7 amended: a duplicate of `device_001`. -/
theorem create_appends_unconditionally_witness :
    2 ≤ (memCreateDevice [seedDevice 0]
        [("id", JSValue.str "device_001"), ("name", JSValue.str "copy")]).1.countP
      (fun d => hasId d "device_001") ∧
    (memCreateDevice [seedDevice 0]
        [("id", JSValue.str "device_001"), ("name", JSValue.str "copy")]).2 =
      [("id", JSValue.str "device_001"), ("name", JSValue.str "copy")] :=
  create_appends_unconditionally [seedDevice 0]
    [("id", JSValue.str "device_001"), ("name", JSValue.str "copy")] "device_001"
    rfl ⟨seedDevice 0, List.mem_singleton.mpr rfl, rfl⟩

/-! ## Claim C8 -/

/-- C8 counterexample: a query with limit 0 (the HTTP route forwards
`?limit=0` as the number 0) returns the entire filtered history,
because `slice(-0)` is `slice(0)`: one sample comes back where the
claimed cap allows none. -/
theorem history_limit_zero_returns_all :
    memGetSensorHistory [⟨50, .num 21, .num 22, .num 23⟩] 0 (some 0) (some 100) =
      [⟨50, .num 21, .num 22, .num 23⟩] ∧
    ¬ ((memGetSensorHistory [⟨50, .num 21, .num 22, .num 23⟩] 0
          (some 0) (some 100)).length ≤ 0) :=
  ⟨rfl, by decide⟩

/-- C8 amended: for every positive limit, a windowed history query on
the memory fallback returns only samples with timestamps inside
[start, end], in chronological order (the stored per-device history
being chronologically ordered), and at most limit entries; a limit of
0, however, returns the entire filtered history. -/
theorem history_query_window_sorted_capped
    (hist : List Sample) (limit : Int) (a b : Nat) (hpos : 0 < limit)
    (hsorted : hist.Pairwise (fun s t => s.timestamp ≤ t.timestamp)) :
    (∀ s ∈ memGetSensorHistory hist limit (some a) (some b),
        a ≤ s.timestamp ∧ s.timestamp ≤ b) ∧
    (memGetSensorHistory hist limit (some a) (some b)).Pairwise
      (fun s t => s.timestamp ≤ t.timestamp) ∧
    (memGetSensorHistory hist limit (some a) (some b)).length ≤ limit.toNat := by
  have hunfold : memGetSensorHistory hist limit (some a) (some b) =
      (hist.filter (fun h => decide (¬ h.timestamp < a) &&
          decide (¬ h.timestamp > b))).drop
        ((hist.filter (fun h => decide (¬ h.timestamp < a) &&
            decide (¬ h.timestamp > b))).length - limit.toNat) := by
    simp only [memGetSensorHistory, Option.isSome_some, Bool.or_self, if_pos]
    rw [jsSliceFrom, if_pos (by omega), neg_neg]
  refine ⟨?_, ?_, ?_⟩
  · intro s hs
    rw [hunfold] at hs
    have hsf := List.mem_of_mem_drop hs
    have hp := (List.mem_filter.mp hsf).2
    simp only [Bool.and_eq_true, decide_eq_true_eq] at hp
    omega
  · rw [hunfold]
    exact (hsorted.filter _).drop
  · rw [hunfold, List.length_drop]
    omega

/-- Witness for C8 amended: two chronologically stored samples, limit
1, window [5, 25]. -/
theorem history_query_window_sorted_capped_witness :
    (∀ s ∈ memGetSensorHistory
        [⟨10, .num 1, .num 2, .num 3⟩, ⟨20, .num 4, .num 5, .num 6⟩] 1
        (some 5) (some 25), 5 ≤ s.timestamp ∧ s.timestamp ≤ 25) ∧
    (memGetSensorHistory
        [⟨10, .num 1, .num 2, .num 3⟩, ⟨20, .num 4, .num 5, .num 6⟩] 1
        (some 5) (some 25)).Pairwise (fun s t => s.timestamp ≤ t.timestamp) ∧
    (memGetSensorHistory
        [⟨10, .num 1, .num 2, .num 3⟩, ⟨20, .num 4, .num 5, .num 6⟩] 1
        (some 5) (some 25)).length ≤ (1 : Int).toNat :=
  history_query_window_sorted_capped
    [⟨10, .num 1, .num 2, .num 3⟩, ⟨20, .num 4, .num 5, .num 6⟩] 1 5 25
    (by decide) (by decide)

/-! ## Claim C10 -/

/-- The camelCase field names used by every `updateDevice` call site
(telemetry ingest, status handler, pump and mode commands) plus the
`lastUpdate` key that `updateDevice` itself refreshes. -/
def camelUpdateKeys : List String :=
  ["temperature", "humidity", "soilMoisture", "pumpActive", "status", "mode",
   "lastUpdate"]

/-- C10: in the in-memory fallback the seeded record is stored with
snake_case keys and updates merge camelCase keys verbatim: after any
update whose patch uses the camelCase field names, the record holds
both spellings (`soilMoisture` freshly merged next to the original
`soil_moisture`), the original snake_case sensor values are unmodified,
the camelCase `lastUpdate` is refreshed, and `getDevices`/`getDevice`
return the stored record itself, applying no key translation. -/
theorem fallback_keeps_snake_case_values (t0 now : Nat) (patch : Obj)
    (hsub : ∀ k ∈ keys patch, k ∈ camelUpdateKeys)
    (hnd : (keys patch).Nodup) (hm : "soilMoisture" ∈ keys patch) :
    ∃ dev, memUpdateDevice [seedDevice t0] "device_001" patch now =
        ([dev], some dev) ∧
      objGet dev "soil_moisture" = some (.num 78) ∧
      objGet dev "pump_active" = some (.bool false) ∧
      objGet dev "last_update" = some (.date t0) ∧
      objGet dev "soilMoisture" = objGet patch "soilMoisture" ∧
      objGet dev "lastUpdate" = some (.date now) ∧
      memGetDevices [dev] = [dev] ∧
      memGetDevice [dev] "device_001" = some dev := by
  have hsnake : ∀ k, k ∉ camelUpdateKeys → k ∉ keys patch :=
    fun k hk hmem => hk (hsub k hmem)
  refine ⟨objSet (objAssign (seedDevice t0) patch) "lastUpdate" (.date now),
    ?_, ?_, ?_, ?_, ?_, ?_, rfl, ?_⟩
  · simp [memUpdateDevice, show hasId (seedDevice t0) "device_001" = true from rfl]
  · rw [objGet_updated_of_not_mem _ _ _ _ (by decide) (hsnake _ (by decide))]
    rfl
  · rw [objGet_updated_of_not_mem _ _ _ _ (by decide) (hsnake _ (by decide))]
    rfl
  · rw [objGet_updated_of_not_mem _ _ _ _ (by decide) (hsnake _ (by decide))]
    rfl
  · exact objGet_updated_of_mem _ _ _ _ (by decide) hnd hm
  · exact objGet_objSet_self _ _ _
  · have hid : objGet (objSet (objAssign (seedDevice t0) patch) "lastUpdate"
        (.date now)) "id" = some (.str "device_001") := by
      rw [objGet_updated_of_not_mem _ _ _ _ (by decide) (hsnake _ (by decide))]
      rfl
    have hdev : hasId (objSet (objAssign (seedDevice t0) patch) "lastUpdate"
        (.date now)) "device_001" = true := by
      unfold hasId
      rw [hid]
      rfl
    simp [memGetDevice, List.find?_cons, hdev]

/-- Witness for C10: patching `soilMoisture` and `pumpActive` in
camelCase on the seeded registry. -/
theorem fallback_keeps_snake_case_values_witness :
    ∃ dev, memUpdateDevice [seedDevice 0] "device_001"
        [("soilMoisture", JSValue.num 50), ("pumpActive", JSValue.bool true)] 9 =
        ([dev], some dev) ∧
      objGet dev "soil_moisture" = some (.num 78) ∧
      objGet dev "pump_active" = some (.bool false) ∧
      objGet dev "last_update" = some (.date 0) ∧
      objGet dev "soilMoisture" =
        objGet [("soilMoisture", JSValue.num 50), ("pumpActive", JSValue.bool true)]
          "soilMoisture" ∧
      objGet dev "lastUpdate" = some (.date 9) ∧
      memGetDevices [dev] = [dev] ∧
      memGetDevice [dev] "device_001" = some dev :=
  fallback_keeps_snake_case_values 0 9
    [("soilMoisture", JSValue.num 50), ("pumpActive", JSValue.bool true)]
    (by decide) (by decide) (by decide)

end SmartFarm
